import Mathlib

/-!
Shallow embedding of the touch-dispatch and widget state machine of
`ugui.py` (a MicroPython GUI library for TFT displays), together with
proofs about the behaviour of its interactive widgets.

Modelling conventions:
* Python floats are modelled as rationals (`ℚ`); the properties at stake
  (clamping, equality gating of callbacks/redraws) do not depend on
  IEEE-754 rounding.
* Pixel coordinates are integers (`ℤ`).
* Colours are RGB triples; a Python variable that may hold `None` is an
  `Option`.
* Side effects (user callbacks, `_show` redraw calls) are observable
  behaviour the spec talks about, so each widget state carries
  instrumentation counters/traces recording how often they were invoked;
  the state-transition functions are otherwise line-by-line translations
  of the Python methods.
-/

namespace UGui

/-- RGB colour triple, as used by the library (e.g. `WHITE = (255,255,255)`). -/
abbrev Color : Type := ℕ × ℕ × ℕ

/-- `WHITE = (255, 255, 255)` from ugui.py. -/
def WHITE : Color := (255, 255, 255)

/-- `RED = (255, 0, 0)` from ugui.py. -/
def RED : Color := (255, 0, 0)

/-- `GREEN = (0, 255, 0)` from ugui.py. -/
def GREEN : Color := (0, 255, 0)

/-- `YELLOW = (255, 255, 0)` from ugui.py. -/
def YELLOW : Color := (255, 255, 0)

/-- The clamp idiom `min(max(val, 0.0), 1.0)` used by every continuous
widget (`Slider.value`, `HorizSlider.value`, `Knob.value`, `Meter.value`). -/
def clamp01 (v : ℚ) : ℚ := min (max v 0) 1

/-! ## Touchable base class: hit testing and dispatch (`Touchable`) -/

/-- State of one `Touchable` widget as seen by the dispatch loop:
the dispatch flags `enabled`, `busy`, `was_touched`, `can_drag`, the
bounding-box geometry from `self.location`, `self.width`, `self.height`,
and instrumentation counters for the abstract `_touched`/`_untouched`
handlers (the base-class claims are about how often those fire; the
handlers themselves do not write the dispatch flags). -/
structure TWidget where
  enabled : Bool
  busy : Bool
  was_touched : Bool
  can_drag : Bool
  x0 : ℤ
  y0 : ℤ
  width : ℤ
  height : ℤ
  touched_count : ℕ
  untouched_count : ℕ
  deriving DecidableEq, Repr

/-- `Touchable._trytouch(self, x, y)`: if `(x, y)` lies in the widget's
bounding box (edges inclusive: `x0 <= x <= x1 and y0 <= y <= y1`), set
`was_touched`; if the widget is not `busy` or it `can_drag`, invoke
`_touched` and set `busy`. -/
def trytouch (w : TWidget) (x y : ℤ) : TWidget :=
  if w.x0 ≤ x ∧ x ≤ w.x0 + w.width ∧ w.y0 ≤ y ∧ y ≤ w.y0 + w.height then
    let w1 := { w with was_touched := true }
    if ¬w.busy ∨ w.can_drag then
      { w1 with touched_count := w1.touched_count + 1, busy := true }
    else w1
  else w

/-- One sample of the touch source per dispatch-loop iteration:
either the panel is `ready` with a coordinate pair, or it is not ready
but still `touched` (the loop does nothing), or there is no contact at
all (`not ready and not touched`). -/
inductive TouchSample where
  | ready (x y : ℤ)
  | touchedNotReady
  | noContact
  deriving DecidableEq, Repr

/-- Effect of one iteration of the `Touchable._touchtest` dispatch loop
on a single registered widget.  If the panel is ready, enabled widgets
get `_trytouch(x, y)`; if there is no contact, every widget with
`was_touched` set gets it cleared together with `busy` and receives one
`_untouched` call; otherwise nothing happens. -/
def touchtest_body (w : TWidget) : TouchSample → TWidget
  | .ready x y => if w.enabled then trytouch w x y else w
  | .touchedNotReady => w
  | .noContact =>
      if w.was_touched then
        { w with was_touched := false, busy := false,
                 untouched_count := w.untouched_count + 1 }
      else w

/-- One full iteration of `Touchable._touchtest` over the registry
`Touchable.touchlist`: every widget is processed independently. -/
def touchtest_step (ws : List TWidget) (s : TouchSample) : List TWidget :=
  ws.map (fun w => touchtest_body w s)

/-- Run a single widget through a sequence of dispatch-loop iterations. -/
def touchtest_run (w : TWidget) (l : List TouchSample) : TWidget :=
  l.foldl touchtest_body w

/-- Whether a ready-sample at `(x, y)` hits `w`'s bounding box (the same
inclusive test `_trytouch` performs). -/
def inBB (w : TWidget) (x y : ℤ) : Bool :=
  decide (w.x0 ≤ x ∧ x ≤ w.x0 + w.width ∧ w.y0 ≤ y ∧ y ≤ w.y0 + w.height)

/-- Number of samples of a contact sequence that are ready-samples whose
point lies inside `w`'s bounding box. -/
def hitsIn (w : TWidget) : List TouchSample → ℕ
  | [] => 0
  | .ready x y :: rest => (if inBB w x y then 1 else 0) + hitsIn w rest
  | .touchedNotReady :: rest => hitsIn w rest
  | .noContact :: rest => hitsIn w rest

/-! ## Slider (vertical) -/

/-- State of a `Slider` relevant to its `value` contract: the foreground
colour, `self._value`, the committed value `self._old_value`, and counters
for `cb_move`, `_show` and `cb_end` invocations.  In Python `_value` is
unset until the first `value()` call writes it (the constructor calls
`self.value(value)` and `value` writes `_value` before reading it), so the
initial content of the `_value` field is never observed. -/
structure SliderState where
  fgcolor : Color
  _value : ℚ
  _old_value : ℚ
  moves : ℕ
  shows : ℕ
  ends : ℕ
  deriving DecidableEq, Repr

/-- `Slider.value(self, val=None, color=None)`: an explicit colour change
redraws; an explicit `val` is clamped to `[0,1]` and, when the clamp
differs from the committed `_old_value`, the commit is updated, `cb_move`
fires and the widget redraws.  Returns the (new) `self._value`. -/
def Slider.value (s : SliderState) (val : Option ℚ) (color : Option Color) :
    SliderState × ℚ :=
  let s := match color with
    | some c => if c ≠ s.fgcolor then { s with fgcolor := c, shows := s.shows + 1 } else s
    | none => s
  match val with
  | some v =>
      let s := { s with _value := clamp01 v }
      let s :=
        if s._value ≠ s._old_value then
          { s with _old_value := s._value, moves := s.moves + 1, shows := s.shows + 1 }
        else s
      (s, s._value)
  | none => (s, s._value)

/-- Tail of `Slider.__init__`: `self._old_value = -1  # Invalidate` followed
by `self.value(value)` (the only `_show`/callback activity in the
constructor goes through `value`). -/
def Slider.init (fg : Color) (value : ℚ) : SliderState × ℚ :=
  let s0 : SliderState :=
    { fgcolor := fg, _value := 0, _old_value := -1, moves := 0, shows := 0, ends := 0 }
  Slider.value s0 (some value) none

/-- `Slider._untouched`: fire `cb_end` only. -/
def Slider._untouched (s : SliderState) : SliderState :=
  { s with ends := s.ends + 1 }

/-! ## HorizSlider -/

/-- State of a `HorizSlider`, including the geometry its `_touched`
projection uses: `self.location[0]`, `self.width`, the border width
resolved by `NoTouch.__init__`, and `self.pot_dimension`. -/
structure HorizSliderState where
  x0 : ℤ
  width : ℤ
  border : ℕ
  pot_dimension : ℤ
  fgcolor : Color
  _value : ℚ
  _old_value : ℚ
  moves : ℕ
  shows : ℕ
  ends : ℕ
  deriving DecidableEq, Repr

/-- `HorizSlider.value(self, val=None, color=None)` — textually the same
body as `Slider.value`. -/
def HorizSlider.value (s : HorizSliderState) (val : Option ℚ) (color : Option Color) :
    HorizSliderState × ℚ :=
  let s := match color with
    | some c => if c ≠ s.fgcolor then { s with fgcolor := c, shows := s.shows + 1 } else s
    | none => s
  match val with
  | some v =>
      let s := { s with _value := clamp01 v }
      let s :=
        if s._value ≠ s._old_value then
          { s with _old_value := s._value, moves := s.moves + 1, shows := s.shows + 1 }
        else s
      (s, s._value)
  | none => (s, s._value)

/-- `HorizSlider.__init__`: the border resolves to `0 if border is None
else border` (in `NoTouch.__init__`), `self.slidewidth = 6`, so
`self.pot_dimension = self.width - 2 * (b + 6 // 2)`; the committed value
starts at the sentinel `-1` and the constructor ends with
`self.value(value)`. -/
def HorizSlider.init (x0 width : ℤ) (border : Option ℕ) (fg : Color) (value : ℚ) :
    HorizSliderState × ℚ :=
  let b : ℕ := match border with | none => 0 | some bw => bw
  let s0 : HorizSliderState :=
    { x0 := x0, width := width, border := b,
      pot_dimension := width - 2 * ((b : ℤ) + 6 / 2),
      fgcolor := fg, _value := 0, _old_value := -1, moves := 0, shows := 0, ends := 0 }
  HorizSlider.value s0 (some value) none

/-- `HorizSlider._touched(self, x, y)`:
`self.value((x - self.location[0]) / self.pot_dimension)` — the horizontal
offset into the widget divided by the pot dimension (float division in
Python, rational division here). -/
def HorizSlider._touched (s : HorizSliderState) (x _y : ℤ) : HorizSliderState :=
  (HorizSlider.value s (some (((x - s.x0 : ℤ) : ℚ) / ((s.pot_dimension : ℤ) : ℚ))) none).1

/-- `HorizSlider._untouched`: fire `cb_end` only. -/
def HorizSlider._untouched (s : HorizSliderState) : HorizSliderState :=
  { s with ends := s.ends + 1 }

/-! ## Knob -/

/-- State of a `Knob` relevant to its `value` contract.  `self._old_value`
starts as `None` and `self._value` as the sentinel `-1`. -/
structure KnobState where
  _value : ℚ
  _old_value : Option ℚ
  moves : ℕ
  shows : ℕ
  ends : ℕ
  deriving DecidableEq, Repr

/-- `Knob._show`: redraw the pointer; afterwards
`self._old_value = self._value`. -/
def Knob._show (s : KnobState) : KnobState :=
  { s with shows := s.shows + 1, _old_value := some s._value }

/-- `Knob.value(self, val=None)`: clamp `val`; only when the clamp differs
from `self._value` does the knob store it, fire `cb_move` and redraw. -/
def Knob.value (s : KnobState) (val : Option ℚ) : KnobState × ℚ :=
  match val with
  | some v =>
      let v := clamp01 v
      let s :=
        if v ≠ s._value then
          Knob._show { s with _value := v, moves := s.moves + 1 }
        else s
      (s, s._value)
  | none => (s, s._value)

/-- Tail of `Knob.__init__`: `self._old_value = None`, `self._value = -1`,
then (after drawing the static face) `self.value(value)`. -/
def Knob.init (value : ℚ) : KnobState × ℚ :=
  let s0 : KnobState :=
    { _value := -1, _old_value := none, moves := 0, shows := 0, ends := 0 }
  Knob.value s0 (some value)

/-- `Knob._untouched`: fire `cb_end` only. -/
def Knob._untouched (s : KnobState) : KnobState :=
  { s with ends := s.ends + 1 }

/-! ## Meter -/

/-- State of a `Meter` relevant to its `value` contract (a display-only
widget: no callbacks, only `_show` redraws). -/
structure MeterState where
  _value : ℚ
  _old_value : ℚ
  shows : ℕ
  deriving DecidableEq, Repr

/-- `Meter.value(self, val=None)`: store the clamp of `val` and redraw only
when it differs from the committed `_old_value`. -/
def Meter.value (s : MeterState) (val : Option ℚ) : MeterState × ℚ :=
  match val with
  | some v =>
      let s := { s with _value := clamp01 v }
      let s :=
        if s._value ≠ s._old_value then
          { s with _old_value := s._value, shows := s.shows + 1 }
        else s
      (s, s._value)
  | none => (s, s._value)

/-- Tail of `Meter.__init__`: `self._value = value` (stored raw),
`self._old_value = -1`, then one direct `self._show()`. -/
def Meter.init (value : ℚ) : MeterState :=
  { _value := value, _old_value := -1, shows := 1 }

/-! ## Checkbox -/

/-- State of a `Checkbox`: the boolean `self._value` plus counters for the
user callback and `_show`.  Python coerces the argument of `value` with
`bool(val)`; the model takes the already-coerced boolean. -/
structure CheckboxState where
  _value : Bool
  callbacks : ℕ
  shows : ℕ
  deriving DecidableEq, Repr

/-- `Checkbox.value(self, val=None)`: only a changed boolean stores, fires
the callback and redraws. -/
def Checkbox.value (s : CheckboxState) (val : Option Bool) : CheckboxState × Bool :=
  match val with
  | some v =>
      if v ≠ s._value then
        ({ s with _value := v, callbacks := s.callbacks + 1, shows := s.shows + 1 }, v)
      else (s, s._value)
  | none => (s, s._value)

/-- Tail of `Checkbox.__init__`: with `value=None` store `False` and draw
once without firing the callback; otherwise prime `self._value = not value`
and route through `self.value(value)` (which therefore always sees a
change). -/
def Checkbox.init (value : Option Bool) : CheckboxState :=
  match value with
  | none => { _value := false, callbacks := 0, shows := 1 }
  | some v => (Checkbox.value { _value := !v, callbacks := 0, shows := 0 } (some v)).1

/-- `Checkbox._touched`: flip through the same setter. -/
def Checkbox._touched (s : CheckboxState) : CheckboxState :=
  (Checkbox.value s (some (!s._value))).1

/-! ## Button -/

/-- State of a `Button` relevant to the highlight-flash contract:
the effective foreground colour (`None` only through the restore path),
`self.orig_fgcolor` (the raw constructor argument), `self.litcolor`, a
redraw counter, whether the self-reverting `Delay` is armed, and a
callback counter. -/
structure ButtonState where
  fgcolor : Option Color
  orig_fgcolor : Option Color
  litcolor : Option Color
  shows : ℕ
  delay_armed : Bool
  callbacks : ℕ
  deriving DecidableEq, Repr

/-- `Button.__init__` (colour bookkeeping): `NoTouch.__init__` resolves
`self.fgcolor = fgcolor if fgcolor is not None else tft.getColor()`;
`self.orig_fgcolor = fgcolor` stores the raw argument; finally
`self.litcolor = litcolor if self.fgcolor is not None else None`, and the
button is drawn once when `show` is true. -/
def Button.init (fgcolor litcolor : Option Color) (tft_color : Color) (show_ : Bool) :
    ButtonState :=
  let fg : Option Color := match fgcolor with | some c => some c | none => some tft_color
  let lit : Option Color := if fg ≠ none then litcolor else none
  { fgcolor := fg, orig_fgcolor := fgcolor, litcolor := lit,
    shows := if show_ then 1 else 0, delay_armed := false, callbacks := 0 }

/-- `Button._touched(self, x, y)`: with a configured `litcolor`, switch the
foreground to it, redraw and arm `self.delay.trigger(1)`; then fire the
callback. -/
def Button._touched (b : ButtonState) : ButtonState :=
  let b :=
    if b.litcolor ≠ none then
      { b with fgcolor := b.litcolor, shows := b.shows + 1, delay_armed := true }
    else b
  { b with callbacks := b.callbacks + 1 }

/-- `Button._shownormal` (the `Delay` target): `self.fgcolor =
self.orig_fgcolor` and redraw. -/
def Button._shownormal (b : ButtonState) : ButtonState :=
  { b with fgcolor := b.orig_fgcolor, shows := b.shows + 1, delay_armed := false }

/-! ## ButtonList -/

/-- One member of a `ButtonList`: object identity is modelled by a numeric
`id`; the dispatch-relevant flags `enabled`, `visible`, `busy` belong to
the underlying `Button`/`Touchable`. -/
structure BLButton where
  id : ℕ
  enabled : Bool
  visible : Bool
  busy : Bool
  deriving DecidableEq, Repr

/-- State of a `ButtonList`: the member list `self.lstbuttons`, the id of
`self.current` and a trace of `user_callback` invocations (the id of the
button each call received). -/
structure ButtonListState where
  lstbuttons : List BLButton
  current : Option ℕ
  user_callbacks : List ℕ
  deriving DecidableEq, Repr

/-- `ButtonList.__init__`: empty member list, `self.current = None`. -/
def ButtonList.init : ButtonListState :=
  { lstbuttons := [], current := none, user_callbacks := [] }

/-- `ButtonList.add_button`: the new button is created unshown; it is
visible and enabled (and becomes `self.current`) precisely when it is the
first member added. -/
def ButtonList.add_button (bl : ButtonListState) (newId : ℕ) : ButtonListState :=
  let active := bl.current.isNone
  let button : BLButton := { id := newId, enabled := active, visible := active, busy := false }
  { bl with lstbuttons := bl.lstbuttons ++ [button],
            current := if active then some newId else bl.current }

/-- `ButtonList._callback(self, button, *args)`: look up the touched
button's index, pick the successor `(old_index + 1) % len(lstbuttons)`,
make it current, hide and disable the old button, show, enable and mark
busy the new one, and fire `user_callback(new, *args)` once.  (Python's
`list.index` raises for a non-member; the theorems assume membership, and
the model returns the state unchanged in that unreachable branch.) -/
def ButtonList._callback (bl : ButtonListState) (button : ℕ) : ButtonListState :=
  let old_index := bl.lstbuttons.findIdx (fun b => b.id = button)
  match bl.lstbuttons[(old_index + 1) % bl.lstbuttons.length]? with
  | none => bl
  | some new =>
      let l1 := bl.lstbuttons.map (fun b =>
        if b.id = button then { b with enabled := false, visible := false } else b)
      let l2 := l1.map (fun b =>
        if b.id = new.id then { b with enabled := true, visible := true, busy := true } else b)
      { lstbuttons := l2, current := some new.id,
        user_callbacks := bl.user_callbacks ++ [new.id] }

/-- One touch of the current member: the current button is the only
enabled (hence touchable) member, and its `callback` field was redirected
to `ButtonList._callback`. -/
def ButtonList.touchCurrent (bl : ButtonListState) : ButtonListState :=
  match bl.current with
  | some c => ButtonList._callback bl c
  | none => bl

/-- `k` consecutive touches, each of the then-current member. -/
def ButtonList.touchRepeat (bl : ButtonListState) : ℕ → ButtonListState
  | 0 => bl
  | k + 1 => ButtonList.touchRepeat (ButtonList.touchCurrent bl) k

/-! ## RadioButtons -/

/-- One member of a `RadioButtons` group: identity, the current effective
foreground colour and `self.orig_fgcolor` (the raw constructor argument,
`None` when no explicit `fgcolor` was supplied). -/
structure RButton where
  id : ℕ
  fgcolor : Option Color
  orig_fgcolor : Option Color
  deriving DecidableEq, Repr

/-- State of a `RadioButtons` group.  `selected` is the constructor
argument consulted by `add_button` to decide which member starts
highlighted. -/
structure RadioButtonsState where
  highlight : Color
  lstbuttons : List RButton
  current : Option ℕ
  selected : ℕ
  deriving DecidableEq, Repr

/-- `RadioButtons.__init__(self, highlight, callback=dolittle, selected=0)`. -/
def RadioButtons.init (highlight : Color) (selected : ℕ) : RadioButtonsState :=
  { highlight := highlight, lstbuttons := [], current := none, selected := selected }

/-- `RadioButtons.add_button`: the new button is appended (created
unshown; its `orig_fgcolor` is the raw `fgcolor` argument), then becomes
active exactly when the member count equals `selected + 1`; an active
button gets the highlight colour and becomes current, an inactive one
gets its `orig_fgcolor`.  (The `Button.__init__` foreground default is
dead here, being overwritten before the button is first shown.) -/
def RadioButtons.add_button (g : RadioButtonsState) (newId : ℕ) (fgcolor : Option Color) :
    RadioButtonsState :=
  let button : RButton := { id := newId, fgcolor := fgcolor, orig_fgcolor := fgcolor }
  let active := g.lstbuttons.length + 1 = g.selected + 1
  let button2 : RButton :=
    if active then { button with fgcolor := some g.highlight }
    else { button with fgcolor := button.orig_fgcolor }
  { g with lstbuttons := g.lstbuttons ++ [button2],
           current := if active then some newId else g.current }

/-- Observable events of one `RadioButtons._callback` run, in program
order: a redraw of each member (`_show`), then the single user callback. -/
inductive REvent where
  | _show (id : ℕ)
  | userCB (id : ℕ)
  deriving DecidableEq, Repr

/-- Whether an `REvent` is a user-callback invocation. -/
def REvent.isUserCB : REvent → Bool
  | .userCB _ => true
  | ._show _ => false

/-- `RadioButtons._callback(self, button, *args)`: iterate the full member
list; the member that `is button` gets `fgcolor = highlight` and becomes
`self.current`, every other member gets its `orig_fgcolor` back; each is
redrawn; only after the loop does `user_callback(button, *args)` fire,
once.  The event list records this order. -/
def RadioButtons._callback (g : RadioButtonsState) (button : ℕ) :
    RadioButtonsState × List REvent :=
  let lst := g.lstbuttons.map (fun but =>
    if but.id = button then { but with fgcolor := some g.highlight }
    else { but with fgcolor := but.orig_fgcolor })
  let cur := if g.lstbuttons.any (fun but => but.id = button) then some button else g.current
  ({ g with lstbuttons := lst, current := cur },
   g.lstbuttons.map (fun but => REvent._show but.id) ++ [REvent.userCB button])

/-- `RadioButtons.value(self, button=None)`: a member different from the
current one is routed through `_callback`; otherwise nothing happens.
Returns the resulting state, the events fired, and `self.current`. -/
def RadioButtons.value (g : RadioButtonsState) (button : Option ℕ) :
    (RadioButtonsState × List REvent) × Option ℕ :=
  match button with
  | some b =>
      if some b ≠ g.current then
        let r := RadioButtons._callback g b
        (r, r.1.current)
      else ((g, []), g.current)
  | none => ((g, []), g.current)

/-- A sequence of selection transitions (each one `_callback`). -/
def RadioButtons.runCallbacks (g : RadioButtonsState) (cs : List ℕ) : RadioButtonsState :=
  cs.foldl (fun g c => (RadioButtons._callback g c).1) g

/-! ## IconButton and IconRadioButtons -/

/-- One member of an `IconRadioButtons` group: an `IconButton` with its
integer icon `state` (1 = selected icon, 0 = unselected icon). -/
structure IButton where
  id : ℕ
  state : ℕ
  deriving DecidableEq, Repr

/-- State of an `IconRadioButtons` group: the member collection
`self.setbuttons` and the constructor argument `selected` consulted by
`add_button`. -/
structure IconRadioState where
  setbuttons : List IButton
  selected : ℕ
  deriving DecidableEq, Repr

/-- Observable events of one `IconRadioButtons._callback` run, in program
order: `_show(1)`/`_show(0)` on each member, then the single user
callback. -/
inductive IEvent where
  | _show (id st : ℕ)
  | userCB (id : ℕ)
  deriving DecidableEq, Repr

/-- Whether an `IEvent` is a user-callback invocation. -/
def IEvent.isUserCB : IEvent → Bool
  | .userCB _ => true
  | ._show _ _ => false

/-- `IconRadioButtons.__init__(self, callback=dolittle, selected=0)`. -/
def IconRadioButtons.init (selected : ℕ) : IconRadioState :=
  { setbuttons := [], selected := selected }

/-- `IconRadioButtons.add_button`: the new `IconButton` is created with
`state = 1` exactly when `self.selected == len(self.setbuttons)` at the
moment of addition, else `state = 0`. -/
def IconRadioButtons.add_button (g : IconRadioState) (newId : ℕ) : IconRadioState :=
  let st := if g.selected = g.setbuttons.length then 1 else 0
  { g with setbuttons := g.setbuttons ++ [{ id := newId, state := st }] }

/-- `IconRadioButtons._callback(self, button, *args)`: iterate the member
set; the member that `is button` gets `_show(1)`, every other gets
`_show(0)` (`_show` stores the icon state); then the user callback fires
once. -/
def IconRadioButtons._callback (g : IconRadioState) (button : ℕ) :
    IconRadioState × List IEvent :=
  ({ g with setbuttons := g.setbuttons.map (fun but =>
      if but.id = button then { but with state := 1 } else { but with state := 0 }) },
   g.setbuttons.map (fun but => IEvent._show but.id (if but.id = button then 1 else 0))
     ++ [IEvent.userCB button])

/-- A sequence of selection transitions (each one `_callback`). -/
def IconRadioButtons.runCallbacks (g : IconRadioState) (cs : List ℕ) : IconRadioState :=
  cs.foldl (fun g c => (IconRadioButtons._callback g c).1) g

/-- Failure conditions of `IconRadioButtons.value`:
`ugui_exception('Button not a member of this radio button')` and the
`assert len(resultset) == 1` invariant check. -/
inductive GuiError where
  | notMember
  | invariantViolation
  deriving DecidableEq, Repr

/-- `IconRadioButtons.value(self, but=None)`: with an argument, a
non-member fails; a member whose `value()` (icon state) is 0 is routed
through `_callback` first.  In every call the selected set
`{x for x in setbuttons if x.state == 1}` is then computed and
`assert len(resultset) == 1` must pass before the single member is
returned. -/
def IconRadioButtons.value (g : IconRadioState) (but : Option ℕ) :
    Except GuiError (IconRadioState × ℕ) :=
  match but with
  | some b =>
      match g.setbuttons.find? (fun x => x.id = b) with
      | none => .error .notMember
      | some butObj =>
          let g1 := if butObj.state = 0 then (IconRadioButtons._callback g b).1 else g
          match g1.setbuttons.filter (fun x => x.state = 1) with
          | [r] => .ok (g1, r.id)
          | _ => .error .invariantViolation
  | none =>
      match g.setbuttons.filter (fun x => x.state = 1) with
      | [r] => .ok (g, r.id)
      | _ => .error .invariantViolation

/-! ## Theorems -/

/-- C4: for every continuous widget (Slider, HorizSlider, Knob, Meter) and
every numeric input `v`, `value(v)` followed by `value()` with no argument
returns `min(max(v, 0.0), 1.0)`, however far out of range `v` is:
out-of-range continuous inputs are clamped, never rejected. -/
theorem claim_C4 :
    (∀ (s : SliderState) (v : ℚ),
      (Slider.value (Slider.value s (some v) none).1 none none).2 = min (max v 0) 1) ∧
    (∀ (s : HorizSliderState) (v : ℚ),
      (HorizSlider.value (HorizSlider.value s (some v) none).1 none none).2 = min (max v 0) 1) ∧
    (∀ (s : KnobState) (v : ℚ),
      (Knob.value (Knob.value s (some v)).1 none).2 = min (max v 0) 1) ∧
    (∀ (s : MeterState) (v : ℚ),
      (Meter.value (Meter.value s (some v)).1 none).2 = min (max v 0) 1) := by
  refine ⟨fun s v => ?_, fun s v => ?_, fun s v => ?_, fun s v => ?_⟩ <;>
    simp only [Slider.value, HorizSlider.value, Knob.value, Meter.value, Knob._show,
      clamp01] <;>
    split <;> simp_all

/-- C5: setting a value equal to the current committed value is a no-op:
for `Checkbox`, `value(v)` with `bool(v)` equal to the stored value, and
for `Slider`/`HorizSlider`/`Knob`, `value(v)` with the clamp of `v` equal
to the committed value, the returned state is exactly the input state
(hence no callback fired, no redraw issued, no stored field changed). -/
theorem claim_C5 :
    (∀ (s : CheckboxState) (v : Bool), v = s._value →
      Checkbox.value s (some v) = (s, s._value)) ∧
    (∀ (s : SliderState) (v : ℚ), s._value = s._old_value → clamp01 v = s._old_value →
      Slider.value s (some v) none = (s, s._value)) ∧
    (∀ (s : HorizSliderState) (v : ℚ), s._value = s._old_value → clamp01 v = s._old_value →
      HorizSlider.value s (some v) none = (s, s._value)) ∧
    (∀ (s : KnobState) (v : ℚ), clamp01 v = s._value →
      Knob.value s (some v) = (s, s._value)) := by
  refine ⟨fun s v h => ?_, fun s v h h2 => ?_, fun s v h h2 => ?_, fun s v h => ?_⟩
  · subst h; simp [Checkbox.value]
  · obtain ⟨fg, sv, so, m, sh, e⟩ := s
    simp only at h h2
    subst h
    simp [Slider.value, h2]
  · obtain ⟨x0, w, b, p, fg, sv, so, m, sh, e⟩ := s
    simp only at h h2
    subst h
    simp [HorizSlider.value, h2]
  · simp [Knob.value, h]

/-- Closed witness for C5 at concrete states: a checked checkbox set to
`true` again, sliders and a knob at committed value `1/2` set to `1/2`. -/
theorem claim_C5_witness :
    Checkbox.value ⟨true, 3, 4⟩ (some true) = (⟨true, 3, 4⟩, true) ∧
    Slider.value ⟨WHITE, 1/2, 1/2, 3, 4, 5⟩ (some (1/2)) none = (⟨WHITE, 1/2, 1/2, 3, 4, 5⟩, 1/2) ∧
    HorizSlider.value ⟨0, 200, 0, 194, WHITE, 1/2, 1/2, 3, 4, 5⟩ (some (1/2)) none
      = (⟨0, 200, 0, 194, WHITE, 1/2, 1/2, 3, 4, 5⟩, 1/2) ∧
    Knob.value ⟨1/2, some (1/2), 3, 4, 5⟩ (some (1/2)) = (⟨1/2, some (1/2), 3, 4, 5⟩, 1/2) :=
  ⟨claim_C5.1 ⟨true, 3, 4⟩ true rfl,
   claim_C5.2.1 ⟨WHITE, 1/2, 1/2, 3, 4, 5⟩ (1/2) rfl (by norm_num [clamp01]),
   claim_C5.2.2.1 ⟨0, 200, 0, 194, WHITE, 1/2, 1/2, 3, 4, 5⟩ (1/2) rfl (by norm_num [clamp01]),
   claim_C5.2.2.2 ⟨1/2, some (1/2), 3, 4, 5⟩ (1/2) (by norm_num [clamp01])⟩

/-- C10: constructing a `Slider`, `HorizSlider` or `Knob` fires `cb_move`
exactly once, for every initial value (the committed value starts at the
out-of-range sentinel `-1`, so the first set always registers as a
change); constructing a `Checkbox` with any non-`None` initial value fires
the user callback exactly once, and only `value=None` suppresses it. -/
theorem claim_C10 :
    (∀ (fg : Color) (v : ℚ), (Slider.init fg v).1.moves = 1) ∧
    (∀ (x0 w : ℤ) (b : Option ℕ) (fg : Color) (v : ℚ),
      (HorizSlider.init x0 w b fg v).1.moves = 1) ∧
    (∀ v : ℚ, (Knob.init v).1.moves = 1) ∧
    (∀ v : Bool, (Checkbox.init (some v)).callbacks = 1) ∧
    (Checkbox.init none).callbacks = 0 := by
  have hne : ∀ v : ℚ, clamp01 v ≠ -1 := by
    intro v
    have h0 : (0 : ℚ) ≤ clamp01 v := le_min (le_max_right v 0) (by norm_num)
    intro h
    rw [h] at h0
    norm_num at h0
  refine ⟨fun fg v => ?_, fun x0 w b fg v => ?_, fun v => ?_, fun v => ?_, ?_⟩
  · simp [Slider.init, Slider.value, hne v]
  · simp [HorizSlider.init, HorizSlider.value, hne v]
  · simp [Knob.init, Knob.value, Knob._show, hne v]
  · cases v <;> simp [Checkbox.init, Checkbox.value]
  · simp [Checkbox.init]

/-- C7 is a code bug: `Button.__init__` stores the raw constructor
argument in `self.orig_fgcolor`, so for a button constructed without an
explicit `fgcolor` (it renders with the display's default colour — here
`WHITE`) but with a highlight colour, the one-tick timer fired after
`_touched` sets `self.fgcolor` to `None` instead of restoring the colour
the button had before the touch.  The callback and highlight steps
themselves behave as claimed. -/
theorem claim_C7_code_bug :
    (Button.init none (some YELLOW) WHITE true).fgcolor = some WHITE ∧
    (Button._touched (Button.init none (some YELLOW) WHITE true)).fgcolor = some YELLOW ∧
    (Button._touched (Button.init none (some YELLOW) WHITE true)).delay_armed = true ∧
    (Button._touched (Button.init none (some YELLOW) WHITE true)).callbacks = 1 ∧
    (Button._shownormal (Button._touched (Button.init none (some YELLOW) WHITE true))).fgcolor
      = none ∧
    (none : Option Color) ≠ some WHITE := by decide

/-- C8 as stated is refuted: a constructible `IconRadioButtons` group in
which *no* member has icon state 1 (constructed with `selected = 5` and
only two members, so `add_button` never assigns state 1) does not have
more than one selected member, yet `value()` fails the
`assert len(resultset) == 1` check instead of returning a member. -/
theorem claim_C8_counterexample :
    ((IconRadioButtons.add_button (IconRadioButtons.add_button
        (IconRadioButtons.init 5) 0) 1).setbuttons.filter
          (fun x => x.state = 1)).length ≤ 1 ∧
    IconRadioButtons.value (IconRadioButtons.add_button (IconRadioButtons.add_button
        (IconRadioButtons.init 5) 0) 1) none
      = Except.error GuiError.invariantViolation := ⟨by decide, rfl⟩

/-- C8 amended: `IconRadioButtons.value()` defensively checks the
exactly-one-selected invariant and fails with the InvariantViolation
condition whenever the number of members with icon state 1 differs from
one — more than one *or zero* — and otherwise returns the single selected
member. -/
theorem claim_C8_amended (g : IconRadioState) :
    (∀ r : IButton, g.setbuttons.filter (fun x => x.state = 1) = [r] →
      IconRadioButtons.value g none = Except.ok (g, r.id)) ∧
    ((g.setbuttons.filter (fun x => x.state = 1)).length ≠ 1 →
      IconRadioButtons.value g none = Except.error GuiError.invariantViolation) := by
  constructor
  · intro r h
    simp [IconRadioButtons.value, h]
  · intro h
    rcases hf : g.setbuttons.filter (fun x => x.state = 1) with _ | ⟨r, _ | ⟨r2, rest⟩⟩
    · simp [IconRadioButtons.value, hf]
    · rw [hf] at h; simp at h
    · simp [IconRadioButtons.value, hf]

/-- Closed witness for C8 amended: a two-member group with the first
member selected returns that member; a (misused) group with both members
at state 1 fails the invariant check. -/
theorem claim_C8_amended_witness :
    IconRadioButtons.value (IconRadioButtons.add_button (IconRadioButtons.add_button
        (IconRadioButtons.init 0) 7) 8) none
      = Except.ok (IconRadioButtons.add_button (IconRadioButtons.add_button
          (IconRadioButtons.init 0) 7) 8, 7) ∧
    IconRadioButtons.value ⟨[⟨7, 1⟩, ⟨8, 1⟩], 0⟩ none
      = Except.error GuiError.invariantViolation :=
  ⟨(claim_C8_amended (IconRadioButtons.add_button (IconRadioButtons.add_button
      (IconRadioButtons.init 0) 7) 8)).1 ⟨7, 1⟩ (by decide),
   (claim_C8_amended ⟨[⟨7, 1⟩, ⟨8, 1⟩], 0⟩).2 (by decide)⟩

/-- `HorizSlider.value` never changes the geometry fields. -/
theorem HorizSlider.value_geom (s : HorizSliderState) (val : Option ℚ) (color : Option Color) :
    (HorizSlider.value s val color).1.x0 = s.x0 ∧
    (HorizSlider.value s val color).1.pot_dimension = s.pot_dimension := by
  cases color <;> cases val <;> simp only [HorizSlider.value] <;> (repeat' split) <;> simp

/-- `HorizSlider.value` with an explicit value stores its clamp in
`self._value`. -/
theorem HorizSlider.value_stores (s : HorizSliderState) (v : ℚ) :
    (HorizSlider.value s (some v) none).1._value = clamp01 v := by
  simp only [HorizSlider.value]
  split <;> rfl

/-- Geometry established by `HorizSlider.__init__` with `border=None`:
the border resolves to 0 and the pot dimension to `width - 6`. -/
theorem HorizSlider.init_geom (x0 w : ℤ) (fg : Color) (v : ℚ) :
    (HorizSlider.init x0 w none fg v).1.x0 = x0 ∧
    (HorizSlider.init x0 w none fg v).1.pot_dimension = w - 6 := by
  have h := HorizSlider.value_geom
    { x0 := x0, width := w, border := 0, pot_dimension := w - 2 * ((0 : ℕ) + 6 / 2),
      fgcolor := fg, _value := 0, _old_value := -1, moves := 0, shows := 0, ends := 0 }
    (some v) none
  simp only [HorizSlider.init]
  refine ⟨h.1, ?_⟩
  rw [h.2]
  norm_num

/-- C9 as stated is refuted: for the default `HorizSlider` geometry
(width 200, no border, placed at `x0 = 0`) a touch at the horizontal
midpoint of the bounding box (`x = 100`) yields `100/194 = 50/97`, which
differs from `0.5` by about 1.5 percent — no rounding is involved in this
computation, so the result is not "0.5 up to rounding". -/
theorem claim_C9_counterexample :
    (HorizSlider.init 0 200 none WHITE 0).1.pot_dimension = 194 ∧
    (HorizSlider._touched (HorizSlider.init 0 200 none WHITE 0).1 100 15)._value = 50 / 97 ∧
    ((50 : ℚ) / 97) ≠ 1 / 2 := by
  have hg := HorizSlider.init_geom 0 200 WHITE 0
  refine ⟨by rw [hg.2]; norm_num, ?_, by norm_num⟩
  rw [HorizSlider._touched, HorizSlider.value_stores, hg.1, hg.2]
  norm_num [clamp01]

/-- C9 amended: `HorizSlider.touched(x, y)` sets the value to the clamp of
`(x - location.x) / pot_dimension`; a touch at the left edge yields
exactly 0.0; a touch at the midpoint of the bounding box yields
`(width/2) / pot_dimension` (slightly above 0.5; exactly 0.5 is produced
at `x = location.x + pot_dimension/2` instead); and a subsequent
`untouched()` fires the end callback exactly once with no value change
and no redraw. -/
theorem claim_C9_amended (x0 w : ℤ) (fg : Color) (v0 : ℚ) (x : ℤ)
    (hpot : 0 < (HorizSlider.init x0 w none fg v0).1.pot_dimension)
    (heven : (HorizSlider.init x0 w none fg v0).1.pot_dimension % 2 = 0) :
    (HorizSlider._touched (HorizSlider.init x0 w none fg v0).1 x 0)._value
      = clamp01 (((x - x0 : ℤ) : ℚ) / ((w - 6 : ℤ) : ℚ)) ∧
    (HorizSlider._touched (HorizSlider.init x0 w none fg v0).1 x0 0)._value = 0 ∧
    (HorizSlider._touched (HorizSlider.init x0 w none fg v0).1
        (x0 + (HorizSlider.init x0 w none fg v0).1.pot_dimension / 2) 0)._value = 1 / 2 ∧
    (∀ s : HorizSliderState,
      (HorizSlider._untouched s).ends = s.ends + 1 ∧
      (HorizSlider._untouched s)._value = s._value ∧
      (HorizSlider._untouched s).shows = s.shows ∧
      (HorizSlider._untouched s).moves = s.moves) := by
  have hg := HorizSlider.init_geom x0 w fg v0
  rw [hg.2] at hpot heven
  obtain ⟨k, hk⟩ : (2 : ℤ) ∣ (w - 6) := Int.dvd_of_emod_eq_zero heven
  have hk0 : (0 : ℤ) < k := by omega
  refine ⟨?_, ?_, ?_, fun s => ⟨rfl, rfl, rfl, rfl⟩⟩
  · rw [HorizSlider._touched, HorizSlider.value_stores, hg.1, hg.2]
  · rw [HorizSlider._touched, HorizSlider.value_stores, hg.1]
    norm_num [clamp01]
  · rw [HorizSlider._touched, HorizSlider.value_stores, hg.1, hg.2, hk]
    have h2 : (2 : ℤ) * k / 2 = k := Int.mul_ediv_cancel_left k (by norm_num)
    rw [h2]
    have hkq : ((k : ℤ) : ℚ) ≠ 0 := by
      simp only [ne_eq, Int.cast_eq_zero]
      omega
    have harg : ((x0 + k - x0 : ℤ) : ℚ) / ((2 * k : ℤ) : ℚ) = 1 / 2 := by
      push_cast
      rw [add_sub_cancel_left]
      rw [div_eq_div_iff (by positivity) (by norm_num)]
      ring
    rw [harg]
    norm_num [clamp01]

/-- Closed witness for C9 amended at the default geometry (`x0 = 0`,
`width = 200`, hence `pot_dimension = 194`). -/
theorem claim_C9_amended_witness :
    (HorizSlider._touched (HorizSlider.init 0 200 none WHITE 0).1 37 0)._value
      = clamp01 (((37 - 0 : ℤ) : ℚ) / ((200 - 6 : ℤ) : ℚ)) ∧
    (HorizSlider._touched (HorizSlider.init 0 200 none WHITE 0).1 0 0)._value = 0 ∧
    (HorizSlider._touched (HorizSlider.init 0 200 none WHITE 0).1
        (0 + (HorizSlider.init 0 200 none WHITE 0).1.pot_dimension / 2) 0)._value = 1 / 2 := by
  have h := claim_C9_amended 0 200 WHITE 0 37
    (by rw [(HorizSlider.init_geom 0 200 WHITE 0).2]; norm_num)
    (by rw [(HorizSlider.init_geom 0 200 WHITE 0).2]; norm_num)
  exact ⟨h.1, h.2.1, h.2.2.1⟩

/-- A widget with `was_touched` clear is untouched by a no-contact
iteration. -/
theorem touchtest_body_noContact_id (w : TWidget) (h : w.was_touched = false) :
    touchtest_body w TouchSample.noContact = w := by
  simp [touchtest_body, h]

/-- A widget with `was_touched` clear is untouched by any number of
consecutive no-contact iterations. -/
theorem touchtest_run_noContact_id (w : TWidget) (h : w.was_touched = false) (n : ℕ) :
    touchtest_run w (List.replicate n TouchSample.noContact) = w := by
  induction n with
  | zero => rfl
  | succ n ih =>
      rw [List.replicate_succ]
      show touchtest_run (touchtest_body w TouchSample.noContact) _ = w
      rw [touchtest_body_noContact_id w h]
      exact ih

/-- C2: in the first dispatch-loop iteration with no contact present,
every widget with `was_touched` set has it cleared together with `busy`
and receives exactly one `_untouched` call; further consecutive
no-contact iterations leave the `_untouched` count unchanged.  (The first
conjunct ties the full-registry iteration to the per-widget transition:
widgets are processed independently, in registry order.) -/
theorem claim_C2 :
    (∀ (ws : List TWidget) (s : TouchSample) (i : ℕ) (h : i < ws.length),
      ∃ h2 : i < (touchtest_step ws s).length,
        (touchtest_step ws s).get ⟨i, h2⟩ = touchtest_body (ws.get ⟨i, h⟩) s) ∧
    (∀ w : TWidget, w.was_touched = true →
      (touchtest_body w TouchSample.noContact).was_touched = false ∧
      (touchtest_body w TouchSample.noContact).busy = false ∧
      (touchtest_body w TouchSample.noContact).untouched_count = w.untouched_count + 1) ∧
    (∀ (w : TWidget) (n : ℕ), w.was_touched = true →
      (touchtest_run (touchtest_body w TouchSample.noContact)
          (List.replicate n TouchSample.noContact)).untouched_count
        = w.untouched_count + 1) := by
  refine ⟨fun ws s i h => ?_, fun w h => ?_, fun w n h => ?_⟩
  · exact ⟨by simpa [touchtest_step] using h, by simp [touchtest_step]⟩
  · simp [touchtest_body, h]
  · rw [touchtest_run_noContact_id _ (by simp [touchtest_body, h]) n]
    simp [touchtest_body, h]

/-- Closed witness for C2: a busy, touched, non-drag widget processed by
one no-contact iteration and three further idle iterations. -/
theorem claim_C2_witness :
    (∃ h2 : 0 < (touchtest_step [⟨true, true, true, false, 0, 0, 10, 10, 1, 5⟩]
        TouchSample.noContact).length,
      (touchtest_step [⟨true, true, true, false, 0, 0, 10, 10, 1, 5⟩]
          TouchSample.noContact).get ⟨0, h2⟩
        = touchtest_body (⟨true, true, true, false, 0, 0, 10, 10, 1, 5⟩ : TWidget)
            TouchSample.noContact) ∧
    (touchtest_body (⟨true, true, true, false, 0, 0, 10, 10, 1, 5⟩ : TWidget)
        TouchSample.noContact).was_touched = false ∧
    (touchtest_body (⟨true, true, true, false, 0, 0, 10, 10, 1, 5⟩ : TWidget)
        TouchSample.noContact).busy = false ∧
    (touchtest_body (⟨true, true, true, false, 0, 0, 10, 10, 1, 5⟩ : TWidget)
        TouchSample.noContact).untouched_count = 6 ∧
    (touchtest_run (touchtest_body (⟨true, true, true, false, 0, 0, 10, 10, 1, 5⟩ : TWidget)
          TouchSample.noContact)
        (List.replicate 3 TouchSample.noContact)).untouched_count = 6 :=
  ⟨claim_C2.1 [⟨true, true, true, false, 0, 0, 10, 10, 1, 5⟩] TouchSample.noContact 0
      (by decide),
   (claim_C2.2.1 ⟨true, true, true, false, 0, 0, 10, 10, 1, 5⟩ rfl).1,
   (claim_C2.2.1 ⟨true, true, true, false, 0, 0, 10, 10, 1, 5⟩ rfl).2.1,
   (claim_C2.2.1 ⟨true, true, true, false, 0, 0, 10, 10, 1, 5⟩ rfl).2.2,
   claim_C2.2.2 ⟨true, true, true, false, 0, 0, 10, 10, 1, 5⟩ 3 rfl⟩

/-- One dispatch iteration never changes a widget's static configuration
(enabled/drag flags and bounding-box geometry). -/
theorem touchtest_body_static (w : TWidget) (s : TouchSample) :
    (touchtest_body w s).enabled = w.enabled ∧
    (touchtest_body w s).can_drag = w.can_drag ∧
    (touchtest_body w s).x0 = w.x0 ∧ (touchtest_body w s).y0 = w.y0 ∧
    (touchtest_body w s).width = w.width ∧ (touchtest_body w s).height = w.height := by
  cases s <;> simp only [touchtest_body, trytouch] <;> (repeat' split) <;> simp

/-- `hitsIn` depends only on the bounding-box geometry. -/
theorem hitsIn_congr (w w' : TWidget) (hx : w'.x0 = w.x0) (hy : w'.y0 = w.y0)
    (hw : w'.width = w.width) (hh : w'.height = w.height) (l : List TouchSample) :
    hitsIn w' l = hitsIn w l := by
  induction l with
  | nil => rfl
  | cons s rest ih =>
      cases s <;> simp [hitsIn, ih, inBB, hx, hy, hw, hh]

/-- Behaviour of a non-drag-capable enabled widget over a sequence of
contact iterations: from the idle state the `_touched` count rises by one
exactly when some sample hits the box (and then `busy`/`was_touched` are
set); from the busy state nothing further fires while contact persists. -/
theorem nondrag_aux : ∀ (l : List TouchSample) (w : TWidget),
    w.enabled = true → w.can_drag = false →
    (∀ s ∈ l, s ≠ TouchSample.noContact) →
    ((w.busy = false → w.was_touched = false →
      (touchtest_run w l).touched_count = w.touched_count + min (hitsIn w l) 1 ∧
      (touchtest_run w l).busy = decide (0 < hitsIn w l) ∧
      (touchtest_run w l).was_touched = decide (0 < hitsIn w l)) ∧
    (w.busy = true → w.was_touched = true →
      (touchtest_run w l).touched_count = w.touched_count ∧
      (touchtest_run w l).busy = true ∧
      (touchtest_run w l).was_touched = true)) := by
  intro l
  induction l with
  | nil =>
      intro w he hd _
      constructor
      · intro hb ht
        simp [touchtest_run, hitsIn, hb, ht]
      · intro hb ht
        simp [touchtest_run, hb, ht]
  | cons s rest ih =>
      intro w he hd hl
      have hlr : ∀ t ∈ rest, t ≠ TouchSample.noContact := fun t htm => hl t (by simp [htm])
      have hrun : touchtest_run w (s :: rest) = touchtest_run (touchtest_body w s) rest := rfl
      cases s with
      | noContact => exact absurd rfl (hl TouchSample.noContact (by simp))
      | touchedNotReady =>
          have hbody : touchtest_body w TouchSample.touchedNotReady = w := rfl
          rw [hrun, hbody]
          have := ih w he hd hlr
          constructor
          · intro hb ht
            have h1 := this.1 hb ht
            simpa [hitsIn] using h1
          · intro hb ht
            exact this.2 hb ht
      | ready x y =>
          rw [hrun]
          have hbody : touchtest_body w (TouchSample.ready x y) = trytouch w x y := by
            simp [touchtest_body, he]
          rw [hbody]
          by_cases hin : w.x0 ≤ x ∧ x ≤ w.x0 + w.width ∧ w.y0 ≤ y ∧ y ≤ w.y0 + w.height
          · -- the sample hits the bounding box
            constructor
            · intro hb ht
              -- idle: the widget fires and becomes busy
              have hw1 : trytouch w x y =
                  { w with was_touched := true, touched_count := w.touched_count + 1,
                           busy := true } := by
                simp [trytouch, hin, hb]
              rw [hw1]
              have := (ih { w with
                             was_touched := true,
                             touched_count := w.touched_count + 1,
                             busy := true } he hd hlr).2 rfl rfl
              refine ⟨?_, ?_, ?_⟩
              · rw [this.1]
                simp [hitsIn, inBB, hin]
              · rw [this.2.1]
                simp [hitsIn, inBB, hin]
              · rw [this.2.2]
                simp [hitsIn, inBB, hin]
            · intro hb ht
              -- already busy: only was_touched is (re)set, no new fire
              have hw1 : trytouch w x y = { w with was_touched := true } := by
                simp [trytouch, hin, hb, hd]
              rw [hw1]
              have := (ih { w with was_touched := true } he hd hlr).2 (by exact hb) rfl
              exact ⟨by rw [this.1], this.2.1, this.2.2⟩
          · -- the sample misses the bounding box
            have hw1 : trytouch w x y = w := by
              simp [trytouch, hin]
            rw [hw1]
            have := ih w he hd hlr
            constructor
            · intro hb ht
              have h1 := this.1 hb ht
              refine ⟨?_, ?_, ?_⟩
              · rw [h1.1]
                simp [hitsIn, inBB, hin]
              · rw [h1.2.1]
                simp [hitsIn, inBB, hin]
              · rw [h1.2.2]
                simp [hitsIn, inBB, hin]
            · intro hb ht
              exact this.2 hb ht

/-- Behaviour of a drag-capable enabled widget over contact iterations:
`_touched` fires on every sample that hits the box. -/
theorem drag_aux : ∀ (l : List TouchSample) (w : TWidget),
    w.enabled = true → w.can_drag = true →
    (∀ s ∈ l, s ≠ TouchSample.noContact) →
    (touchtest_run w l).touched_count = w.touched_count + hitsIn w l := by
  intro l
  induction l with
  | nil =>
      intro w he hd _
      simp [touchtest_run, hitsIn]
  | cons s rest ih =>
      intro w he hd hl
      have hlr : ∀ t ∈ rest, t ≠ TouchSample.noContact := fun t htm => hl t (by simp [htm])
      have hrun : touchtest_run w (s :: rest) = touchtest_run (touchtest_body w s) rest := rfl
      cases s with
      | noContact => exact absurd rfl (hl TouchSample.noContact (by simp))
      | touchedNotReady =>
          rw [hrun]
          have hbody : touchtest_body w TouchSample.touchedNotReady = w := rfl
          rw [hbody, ih w he hd hlr]
          simp [hitsIn]
      | ready x y =>
          rw [hrun]
          have hbody : touchtest_body w (TouchSample.ready x y) = trytouch w x y := by
            simp [touchtest_body, he]
          rw [hbody]
          by_cases hin : w.x0 ≤ x ∧ x ≤ w.x0 + w.width ∧ w.y0 ≤ y ∧ y ≤ w.y0 + w.height
          · have hw1 : trytouch w x y =
                { w with was_touched := true, touched_count := w.touched_count + 1,
                         busy := true } := by
              simp [trytouch, hin, hd]
            have hcongr : hitsIn { w with
                                    was_touched := true,
                                    touched_count := w.touched_count + 1,
                                    busy := true } rest = hitsIn w rest :=
              hitsIn_congr w { w with
                               was_touched := true,
                               touched_count := w.touched_count + 1,
                               busy := true } rfl rfl rfl rfl rest
            rw [hw1, ih { w with
                          was_touched := true,
                          touched_count := w.touched_count + 1,
                          busy := true } he hd hlr, hcongr]
            simp [hitsIn, inBB, hin]
            omega
          · have hw1 : trytouch w x y = w := by
              simp [trytouch, hin]
            rw [hw1, ih w he hd hlr]
            simp [hitsIn, inBB, hin]

/-- C3: over one unbroken contact (no no-contact sample), a non-drag
enabled widget starting idle fires `_touched` exactly once as soon as
some sample hits its bounding box — setting `was_touched` and `busy` —
and never again while the contact persists; a drag-capable widget fires
`_touched` on every iteration whose sample lies inside its box. -/
theorem claim_C3 (w : TWidget) (l : List TouchSample)
    (hc : ∀ s ∈ l, s ≠ TouchSample.noContact)
    (he : w.enabled = true) (hb : w.busy = false) (ht : w.was_touched = false) :
    (w.can_drag = false →
      (hitsIn w l = 0 →
        (touchtest_run w l).touched_count = w.touched_count ∧
        (touchtest_run w l).was_touched = false ∧
        (touchtest_run w l).busy = false) ∧
      (0 < hitsIn w l →
        (touchtest_run w l).touched_count = w.touched_count + 1 ∧
        (touchtest_run w l).was_touched = true ∧
        (touchtest_run w l).busy = true)) ∧
    (w.can_drag = true →
      (touchtest_run w l).touched_count = w.touched_count + hitsIn w l) := by
  constructor
  · intro hd
    have h := (nondrag_aux l w he hd hc).1 hb ht
    constructor
    · intro h0
      refine ⟨?_, ?_, ?_⟩
      · rw [h.1, h0]
        simp
      · rw [h.2.2, h0]
        simp
      · rw [h.2.1, h0]
        simp
    · intro h0
      refine ⟨?_, ?_, ?_⟩
      · rw [h.1]
        have : min (hitsIn w l) 1 = 1 := by omega
        rw [this]
      · rw [h.2.2]
        simp [h0]
      · rw [h.2.1]
        simp [h0]
  · intro hd
    exact drag_aux l w he hd hc

/-- Closed witness for C3: a 10×10 widget at the origin, with a contact
sequence of two hitting samples and one not-ready sample.  The non-drag
variant fires once; the drag-capable variant fires twice. -/
theorem claim_C3_witness :
    (touchtest_run ⟨true, false, false, false, 0, 0, 10, 10, 0, 0⟩
        [TouchSample.ready 5 5, TouchSample.touchedNotReady, TouchSample.ready 6 6]).touched_count
      = 1 ∧
    (touchtest_run ⟨true, false, false, true, 0, 0, 10, 10, 0, 0⟩
        [TouchSample.ready 5 5, TouchSample.touchedNotReady, TouchSample.ready 6 6]).touched_count
      = 2 :=
  ⟨((claim_C3 ⟨true, false, false, false, 0, 0, 10, 10, 0, 0⟩
      [TouchSample.ready 5 5, TouchSample.touchedNotReady, TouchSample.ready 6 6]
      (by decide) rfl rfl rfl).1 rfl).2 (by decide) |>.1,
   (claim_C3 ⟨true, false, false, true, 0, 0, 10, 10, 0, 0⟩
      [TouchSample.ready 5 5, TouchSample.touchedNotReady, TouchSample.ready 6 6]
      (by decide) rfl rfl rfl).2 rfl⟩

/-- With pairwise-distinct button identities, id equality of list entries
is index equality. -/
theorem id_getElem_inj (l : List BLButton) (hnd : (l.map BLButton.id).Nodup)
    {j k : ℕ} (hj : j < l.length) (hk : k < l.length) :
    l[j].id = l[k].id ↔ j = k := by
  have hj2 : j < (l.map BLButton.id).length := by simpa using hj
  have hk2 : k < (l.map BLButton.id).length := by simpa using hk
  constructor
  · intro heq
    have h1 : (l.map BLButton.id)[j] = (l.map BLButton.id)[k] := by simpa using heq
    exact (List.Nodup.getElem_inj_iff hnd).1 h1
  · rintro rfl
    rfl

/-- `lstbuttons.index(button)` finds the unique position of a member when
ids are pairwise distinct. -/
theorem findIdx_id_of_nodup (l : List BLButton) (i : ℕ) (h : i < l.length)
    (hnd : (l.map BLButton.id).Nodup) :
    l.findIdx (fun b => b.id = l[i].id) = i := by
  rw [List.findIdx_eq h]
  refine ⟨by simp, fun j hji => ?_⟩
  have hj : j < l.length := Nat.lt_trans hji h
  simp only [decide_eq_false_iff_not]
  intro heq
  have := (id_getElem_inj l hnd hj h).1 heq
  omega

/-- Effect of one `ButtonList._callback` transition on the state, for a
touch of the member at position `i`: the member at `(i+1) mod N` becomes
current, busy, enabled and visible, the old member (when distinct) is
disabled and hidden, every other member keeps its flags, the identity
list is unchanged and the user callback fires exactly once with the new
current member. -/
theorem ButtonList.callback_step (bl : ButtonListState) (i : ℕ)
    (h : i < bl.lstbuttons.length)
    (hnd : (bl.lstbuttons.map BLButton.id).Nodup)
    (hlt : (i + 1) % bl.lstbuttons.length < bl.lstbuttons.length) :
    (ButtonList._callback bl bl.lstbuttons[i].id).current
      = some bl.lstbuttons[(i + 1) % bl.lstbuttons.length].id ∧
    (ButtonList._callback bl bl.lstbuttons[i].id).user_callbacks
      = bl.user_callbacks ++ [bl.lstbuttons[(i + 1) % bl.lstbuttons.length].id] ∧
    (ButtonList._callback bl bl.lstbuttons[i].id).lstbuttons.map BLButton.id
      = bl.lstbuttons.map BLButton.id ∧
    (∀ j (hj : j < bl.lstbuttons.length)
        (hj2 : j < (ButtonList._callback bl bl.lstbuttons[i].id).lstbuttons.length),
      ((ButtonList._callback bl bl.lstbuttons[i].id).lstbuttons[j].enabled
        = if j = (i + 1) % bl.lstbuttons.length then true
          else if j = i then false else bl.lstbuttons[j].enabled) ∧
      ((ButtonList._callback bl bl.lstbuttons[i].id).lstbuttons[j].visible
        = if j = (i + 1) % bl.lstbuttons.length then true
          else if j = i then false else bl.lstbuttons[j].visible) ∧
      ((ButtonList._callback bl bl.lstbuttons[i].id).lstbuttons[j].busy
        = if j = (i + 1) % bl.lstbuttons.length then true else bl.lstbuttons[j].busy)) := by
  have hfind := findIdx_id_of_nodup bl.lstbuttons i h hnd
  simp only [ButtonList._callback, hfind, List.getElem?_eq_getElem hlt]
  refine ⟨trivial, trivial, ?_, ?_⟩
  · simp only [List.map_map]
    apply List.map_congr_left
    intro b _
    simp only [Function.comp]
    split <;> split <;> rfl
  · intro j hj hj2
    by_cases hjnew : j = (i + 1) % bl.lstbuttons.length <;> by_cases hji : j = i
    · -- j is both the old and the new index (singleton wrap-around)
      have hc1 : bl.lstbuttons[j].id = bl.lstbuttons[i].id :=
        (id_getElem_inj bl.lstbuttons hnd hj h).2 hji
      have hc2 : bl.lstbuttons[j].id = bl.lstbuttons[(i + 1) % bl.lstbuttons.length].id :=
        (id_getElem_inj bl.lstbuttons hnd hj hlt).2 hjnew
      have hc3 : bl.lstbuttons[i].id = bl.lstbuttons[(i + 1) % bl.lstbuttons.length].id :=
        hc1.symm.trans hc2
      have hin : i = (i + 1) % bl.lstbuttons.length := hji.symm.trans hjnew
      simp [List.getElem_map, hc1, hc3, hji, hjnew]
      exact ⟨hin, Or.inl hin⟩
    · -- j is the new index only
      have hc2 : bl.lstbuttons[j].id = bl.lstbuttons[(i + 1) % bl.lstbuttons.length].id :=
        (id_getElem_inj bl.lstbuttons hnd hj hlt).2 hjnew
      have hne : ¬bl.lstbuttons[j].id = bl.lstbuttons[i].id :=
        fun hcon => hji ((id_getElem_inj bl.lstbuttons hnd hj h).1 hcon)
      have hneNew : ¬bl.lstbuttons[(i + 1) % bl.lstbuttons.length].id = bl.lstbuttons[i].id :=
        fun hcon => hne (hc2.trans hcon)
      simp [List.getElem_map, hne, hc2, hji, hjnew, hneNew]
    · -- j is the old index only
      have hc1 : bl.lstbuttons[j].id = bl.lstbuttons[i].id :=
        (id_getElem_inj bl.lstbuttons hnd hj h).2 hji
      have hne2 : ¬bl.lstbuttons[j].id = bl.lstbuttons[(i + 1) % bl.lstbuttons.length].id :=
        fun hcon => hjnew ((id_getElem_inj bl.lstbuttons hnd hj hlt).1 hcon)
      have hne3 : ¬bl.lstbuttons[i].id = bl.lstbuttons[(i + 1) % bl.lstbuttons.length].id :=
        fun hcon => hne2 (hc1.trans hcon)
      have himnew : ¬i = (i + 1) % bl.lstbuttons.length := fun hcon => hjnew (hji.trans hcon)
      simp [List.getElem_map, hc1, hne2, hne3, hji, hjnew]
      exact ⟨himnew, fun hcon => absurd hcon himnew⟩
    · -- j is neither
      have hne1 : ¬bl.lstbuttons[j].id = bl.lstbuttons[i].id :=
        fun hcon => hji ((id_getElem_inj bl.lstbuttons hnd hj h).1 hcon)
      have hne2 : ¬bl.lstbuttons[j].id = bl.lstbuttons[(i + 1) % bl.lstbuttons.length].id :=
        fun hcon => hjnew ((id_getElem_inj bl.lstbuttons hnd hj hlt).1 hcon)
      simp [List.getElem_map, hne1, hne2, hji, hjnew]

/-- Lists with equal id-projections agree on entry ids. -/
theorem map_id_getElem_eq {l1 l : List BLButton}
    (hmap : l1.map BLButton.id = l.map BLButton.id)
    {j : ℕ} (h1 : j < l1.length) (h2 : j < l.length) : l1[j].id = l[j].id := by
  have h1m : j < (l1.map BLButton.id).length := by simpa using h1
  have h2m : j < (l.map BLButton.id).length := by simpa using h2
  calc l1[j].id = (l1.map BLButton.id)[j] := by simp
    _ = (l.map BLButton.id)[j] := by simp only [hmap]
    _ = l[j].id := by simp

/-- After `k` touches of the then-current member, the current member is
the one `k` positions (cyclically) after the starting one. -/
theorem ButtonList.touchRepeat_current : ∀ (k : ℕ) (bl : ButtonListState) (i : ℕ)
    (h : i < bl.lstbuttons.length)
    (hnd : (bl.lstbuttons.map BLButton.id).Nodup)
    (hcur : bl.current = some bl.lstbuttons[i].id),
    (ButtonList.touchRepeat bl k).current
      = (bl.lstbuttons[(i + k) % bl.lstbuttons.length]?).map BLButton.id := by
  intro k
  induction k with
  | zero =>
      intro bl i h hnd hcur
      have hidx : (i + 0) % bl.lstbuttons.length = i := by
        rw [Nat.add_zero]
        exact Nat.mod_eq_of_lt h
      simp only [ButtonList.touchRepeat, hidx, List.getElem?_eq_getElem h, Option.map_some]
      exact hcur
  | succ k ih =>
      intro bl i h hnd hcur
      have hn : 0 < bl.lstbuttons.length := Nat.lt_of_le_of_lt (Nat.zero_le i) h
      have hlt : (i + 1) % bl.lstbuttons.length < bl.lstbuttons.length := Nat.mod_lt _ hn
      have hstep := ButtonList.callback_step bl i h hnd hlt
      have htc : ButtonList.touchCurrent bl = ButtonList._callback bl bl.lstbuttons[i].id := by
        simp [ButtonList.touchCurrent, hcur]
      have hlen : (ButtonList._callback bl bl.lstbuttons[i].id).lstbuttons.length
          = bl.lstbuttons.length := by
        have := congrArg List.length hstep.2.2.1
        simpa using this
      have hlt2 : (i + 1) % bl.lstbuttons.length
          < (ButtonList._callback bl bl.lstbuttons[i].id).lstbuttons.length := by
        rw [hlen]
        exact hlt
      have hnd2 : ((ButtonList._callback bl bl.lstbuttons[i].id).lstbuttons.map
          BLButton.id).Nodup := by
        rw [hstep.2.2.1]
        exact hnd
      have hid : (ButtonList._callback bl bl.lstbuttons[i].id).lstbuttons[(i + 1)
            % bl.lstbuttons.length].id
          = bl.lstbuttons[(i + 1) % bl.lstbuttons.length].id :=
        map_id_getElem_eq hstep.2.2.1 hlt2 hlt
      have hcur2 : (ButtonList._callback bl bl.lstbuttons[i].id).current
          = some (ButtonList._callback bl bl.lstbuttons[i].id).lstbuttons[(i + 1)
            % bl.lstbuttons.length].id := by
        rw [hstep.1, hid]
      have hrep : ButtonList.touchRepeat bl (k + 1)
          = ButtonList.touchRepeat (ButtonList._callback bl bl.lstbuttons[i].id) k := by
        simp only [ButtonList.touchRepeat, htc]
      rw [hrep,
        ih (ButtonList._callback bl bl.lstbuttons[i].id) ((i + 1) % bl.lstbuttons.length)
          hlt2 hnd2 hcur2]
      have hidx : ((i + 1) % bl.lstbuttons.length + k)
            % (ButtonList._callback bl bl.lstbuttons[i].id).lstbuttons.length
          = (i + (k + 1)) % bl.lstbuttons.length := by
        rw [hlen, Nat.mod_add_mod]
        congr 1
        omega
      have hlt4 : (i + (k + 1)) % bl.lstbuttons.length < bl.lstbuttons.length :=
        Nat.mod_lt _ hn
      have hlt5 : (i + (k + 1)) % bl.lstbuttons.length
          < (ButtonList._callback bl bl.lstbuttons[i].id).lstbuttons.length := by
        rw [hlen]
        exact hlt4
      rw [hidx, List.getElem?_eq_getElem hlt5, List.getElem?_eq_getElem hlt4]
      simp only [Option.map_some']
      rw [map_id_getElem_eq hstep.2.2.1 hlt5 hlt4]

/-- C6: with N member buttons (pairwise distinct, current member at
position `i`, and exactly the current member enabled and visible), a
touch of the current member advances the current pointer to the member at
position `(i+1) mod N`, leaves exactly that member enabled and visible
(the old member, when distinct, is hidden and disabled), marks the new
member busy, fires the user callback exactly once with the new current
member — and N consecutive touches of the successive current members
return the selection to the original member. -/
theorem claim_C6 (bl : ButtonListState) (i : ℕ)
    (h : i < bl.lstbuttons.length)
    (hnd : (bl.lstbuttons.map BLButton.id).Nodup)
    (hcur : bl.current = some bl.lstbuttons[i].id)
    (hlt : (i + 1) % bl.lstbuttons.length < bl.lstbuttons.length)
    (hinv : ∀ j (hj : j < bl.lstbuttons.length),
      (bl.lstbuttons[j].enabled = true ↔ j = i) ∧
      (bl.lstbuttons[j].visible = true ↔ j = i)) :
    ((ButtonList.touchCurrent bl).current
      = some bl.lstbuttons[(i + 1) % bl.lstbuttons.length].id) ∧
    ((ButtonList.touchCurrent bl).user_callbacks
      = bl.user_callbacks ++ [bl.lstbuttons[(i + 1) % bl.lstbuttons.length].id]) ∧
    (∀ j (hj : j < bl.lstbuttons.length)
        (hj2 : j < (ButtonList.touchCurrent bl).lstbuttons.length),
      ((ButtonList.touchCurrent bl).lstbuttons[j].enabled = true
        ↔ j = (i + 1) % bl.lstbuttons.length) ∧
      ((ButtonList.touchCurrent bl).lstbuttons[j].visible = true
        ↔ j = (i + 1) % bl.lstbuttons.length) ∧
      (j = (i + 1) % bl.lstbuttons.length →
        (ButtonList.touchCurrent bl).lstbuttons[j].busy = true)) ∧
    ((ButtonList.touchRepeat bl bl.lstbuttons.length).current = bl.current) := by
  have hn : 0 < bl.lstbuttons.length := Nat.lt_of_le_of_lt (Nat.zero_le i) h
  have hstep := ButtonList.callback_step bl i h hnd hlt
  have htc : ButtonList.touchCurrent bl = ButtonList._callback bl bl.lstbuttons[i].id := by
    simp [ButtonList.touchCurrent, hcur]
  refine ⟨by rw [htc]; exact hstep.1, by rw [htc]; exact hstep.2.1, ?_, ?_⟩
  · intro j hj hj2
    simp only [htc] at hj2 ⊢
    have hflags := hstep.2.2.2 j hj hj2
    have henj := (hinv j hj).1
    have hvisj := (hinv j hj).2
    constructor
    · rw [hflags.1]
      by_cases hjnew : j = (i + 1) % bl.lstbuttons.length
      · simp [hjnew]
      · by_cases hji : j = i
        · simp [hjnew, hji]
        · simp only [if_neg hjnew, if_neg hji]
          constructor
          · intro hen
            exact absurd (henj.1 hen) hji
          · intro hcon
            exact absurd hcon hjnew
    constructor
    · rw [hflags.2.1]
      by_cases hjnew : j = (i + 1) % bl.lstbuttons.length
      · simp [hjnew]
      · by_cases hji : j = i
        · simp [hjnew, hji]
        · simp only [if_neg hjnew, if_neg hji]
          constructor
          · intro hvis
            exact absurd (hvisj.1 hvis) hji
          · intro hcon
            exact absurd hcon hjnew
    · intro hjnew
      rw [hflags.2.2, if_pos hjnew]
  · have := ButtonList.touchRepeat_current bl.lstbuttons.length bl i h hnd hcur
    rw [this]
    have hidx : (i + bl.lstbuttons.length) % bl.lstbuttons.length = i := by
      rw [Nat.add_mod_right]
      exact Nat.mod_eq_of_lt h
    rw [hidx, List.getElem?_eq_getElem h, Option.map_some', hcur]

/-- Closed witness for C6: a three-member list (ids 10, 11, 12) with the
first member current; one touch advances to id 11 and fires the callback
with it; three touches return to id 10. -/
theorem claim_C6_witness :
    (ButtonList.touchCurrent
      { lstbuttons := [⟨10, true, true, false⟩, ⟨11, false, false, false⟩,
          ⟨12, false, false, false⟩], current := some 10, user_callbacks := [] }).current
      = some 11 ∧
    (ButtonList.touchCurrent
      { lstbuttons := [⟨10, true, true, false⟩, ⟨11, false, false, false⟩,
          ⟨12, false, false, false⟩], current := some 10, user_callbacks := [] }).user_callbacks
      = [11] ∧
    (ButtonList.touchRepeat
      { lstbuttons := [⟨10, true, true, false⟩, ⟨11, false, false, false⟩,
          ⟨12, false, false, false⟩], current := some 10, user_callbacks := [] } 3).current
      = some 10 := by
  have h := claim_C6
    { lstbuttons := [⟨10, true, true, false⟩, ⟨11, false, false, false⟩,
        ⟨12, false, false, false⟩], current := some 10, user_callbacks := [] }
    0 (by decide) (by decide) rfl (by decide)
    (by
      intro j hj
      have hj3 : j < 3 := by simpa using hj
      interval_cases j <;> refine ⟨?_, ?_⟩ <;> simp)
  exact ⟨h.1, h.2.1, h.2.2.2⟩

/-- `RadioButtons._callback` never changes member identities, original
colours, or the group's highlight colour. -/
theorem RadioButtons.callback_preserves (g : RadioButtonsState) (c : ℕ) :
    (RadioButtons._callback g c).1.lstbuttons.map (fun b => (b.id, b.orig_fgcolor))
      = g.lstbuttons.map (fun b => (b.id, b.orig_fgcolor)) ∧
    (RadioButtons._callback g c).1.highlight = g.highlight := by
  refine ⟨?_, rfl⟩
  simp only [RadioButtons._callback, List.map_map]
  apply List.map_congr_left
  intro b _
  simp only [Function.comp]
  split <;> rfl

/-- Identities, original colours and the highlight colour survive any
sequence of `RadioButtons._callback` transitions. -/
theorem RadioButtons.runCallbacks_preserves : ∀ (cs : List ℕ) (g : RadioButtonsState),
    (RadioButtons.runCallbacks g cs).lstbuttons.map (fun b => (b.id, b.orig_fgcolor))
      = g.lstbuttons.map (fun b => (b.id, b.orig_fgcolor)) ∧
    (RadioButtons.runCallbacks g cs).highlight = g.highlight := by
  intro cs
  induction cs with
  | nil => intro g; exact ⟨rfl, rfl⟩
  | cons c rest ih =>
      intro g
      have h1 := RadioButtons.callback_preserves g c
      have h2 := ih (RadioButtons._callback g c).1
      exact ⟨h2.1.trans h1.1, h2.2.trans h1.2⟩

/-- Transfer of the id list along equal (id, orig) projections. -/
theorem map_pair_ids {l1 l : List RButton}
    (hmap : l1.map (fun b => (b.id, b.orig_fgcolor)) = l.map (fun b => (b.id, b.orig_fgcolor))) :
    l1.map RButton.id = l.map RButton.id := by
  have h1 : l1.map RButton.id
      = (l1.map (fun b => (b.id, b.orig_fgcolor))).map Prod.fst := by
    simp [List.map_map, Function.comp]
  have h2 : l.map RButton.id
      = (l.map (fun b => (b.id, b.orig_fgcolor))).map Prod.fst := by
    simp [List.map_map, Function.comp]
  rw [h1, h2, hmap]

/-- Transfer of the no-member-has-the-highlight-colour side condition
along equal (id, orig) projections. -/
theorem map_pair_origs {l1 l : List RButton}
    (hmap : l1.map (fun b => (b.id, b.orig_fgcolor)) = l.map (fun b => (b.id, b.orig_fgcolor)))
    (hl : Color) (horig : ∀ b ∈ l, b.orig_fgcolor ≠ some hl) :
    ∀ b ∈ l1, b.orig_fgcolor ≠ some hl := by
  intro b hb
  have hmem : (b.id, b.orig_fgcolor) ∈ l.map (fun b => (b.id, b.orig_fgcolor)) := by
    rw [← hmap]
    exact List.mem_map_of_mem _ hb
  obtain ⟨b2, hb2, heq⟩ := List.mem_map.1 hmem
  have : b2.orig_fgcolor = b.orig_fgcolor := congrArg Prod.snd heq
  rw [← this]
  exact horig b2 hb2

/-- After one `RadioButtons._callback` member-update pass, the members
whose foreground equals the highlight colour are exactly the chosen one —
provided no member's original colour coincides with the highlight. -/
theorem radio_filter_selected (hl : Color) (c : ℕ) :
    ∀ (l : List RButton), (l.map RButton.id).Nodup → c ∈ l.map RButton.id →
    (∀ b ∈ l, b.orig_fgcolor ≠ some hl) →
    ((l.map (fun but => if but.id = c then { but with fgcolor := some hl }
        else { but with fgcolor := but.orig_fgcolor })).filter
      (fun b => b.fgcolor = some hl)).map RButton.id = [c] := by
  intro l
  induction l with
  | nil =>
      intro _ hmem _
      simp at hmem
  | cons b rest ih =>
      intro hnd hmem horig
      have hndr : (rest.map RButton.id).Nodup := (List.nodup_cons.1 hnd).2
      by_cases hb : b.id = c
      · have hrest : c ∉ rest.map RButton.id := by
          rw [← hb]
          exact (List.nodup_cons.1 hnd).1
        have hrestfilter : (rest.map (fun but =>
            if but.id = c then { but with fgcolor := some hl }
            else { but with fgcolor := but.orig_fgcolor })).filter
              (fun x => x.fgcolor = some hl) = [] := by
          rw [List.filter_eq_nil_iff]
          intro x hx
          obtain ⟨b2, hb2, hfx⟩ := List.mem_map.1 hx
          have hb2c : ¬b2.id = c := by
            intro hcon
            exact hrest (hcon ▸ List.mem_map_of_mem _ hb2)
          rw [← hfx]
          simp [hb2c, horig b2 (List.mem_cons_of_mem b hb2)]
        simp [hb, hrestfilter]
      · have hmemr : c ∈ rest.map RButton.id := by
          rcases (by simpa using hmem : c = b.id ∨ ∃ a ∈ rest, a.id = c) with hcon | ⟨a, ha, haid⟩
          · exact absurd hcon.symm hb
          · exact List.mem_map.2 ⟨a, ha, haid⟩
        have horigr : ∀ x ∈ rest, x.orig_fgcolor ≠ some hl :=
          fun x hx => horig x (List.mem_cons_of_mem b hx)
        have hhead : ¬(if b.id = c then ({ b with fgcolor := some hl } : RButton)
            else { b with fgcolor := b.orig_fgcolor }).fgcolor = some hl := by
          simp [hb, horig b (List.mem_cons_self b rest)]
        simp only [List.map_cons, List.filter_cons]
        rw [if_neg (by simpa using hhead)]
        exact ih hndr hmemr horigr

/-- After one `IconRadioButtons._callback` member-update pass, the members
with icon state 1 are exactly the chosen one. -/
theorem icon_filter_selected (c : ℕ) :
    ∀ (l : List IButton), (l.map IButton.id).Nodup → c ∈ l.map IButton.id →
    ((l.map (fun but => if but.id = c then { but with state := 1 }
        else { but with state := 0 })).filter
      (fun b => b.state = 1)).map IButton.id = [c] := by
  intro l
  induction l with
  | nil =>
      intro _ hmem
      simp at hmem
  | cons b rest ih =>
      intro hnd hmem
      have hndr : (rest.map IButton.id).Nodup := (List.nodup_cons.1 hnd).2
      by_cases hb : b.id = c
      · have hrest : c ∉ rest.map IButton.id := by
          rw [← hb]
          exact (List.nodup_cons.1 hnd).1
        have hrestfilter : (rest.map (fun but =>
            if but.id = c then { but with state := 1 }
            else { but with state := 0 })).filter (fun x => x.state = 1) = [] := by
          rw [List.filter_eq_nil_iff]
          intro x hx
          obtain ⟨b2, hb2, hfx⟩ := List.mem_map.1 hx
          have hb2c : ¬b2.id = c := by
            intro hcon
            exact hrest (hcon ▸ List.mem_map_of_mem _ hb2)
          rw [← hfx]
          simp [hb2c]
        simp [hb, hrestfilter]
      · have hmemr : c ∈ rest.map IButton.id := by
          rcases (by simpa using hmem : c = b.id ∨ ∃ a ∈ rest, a.id = c) with hcon | ⟨a, ha, haid⟩
          · exact absurd hcon.symm hb
          · exact List.mem_map.2 ⟨a, ha, haid⟩
        simp only [List.map_cons, List.filter_cons]
        rw [if_neg (by simp [hb])]
        exact ih hndr hmemr

/-- Among the events of one `RadioButtons._callback` run, the user
callback occurs exactly once, after every member redraw. -/
theorem radio_events_once (l : List RButton) (c : ℕ) :
    ((l.map (fun but => REvent._show but.id)) ++ [REvent.userCB c]).filter REvent.isUserCB
      = [REvent.userCB c] ∧
    ((l.map (fun but => REvent._show but.id)) ++ [REvent.userCB c]).getLast?
      = some (REvent.userCB c) := by
  constructor
  · induction l with
    | nil => rfl
    | cons b rest ih => simpa [REvent.isUserCB] using ih
  · exact List.getLast?_concat _

/-- Among the events of one `IconRadioButtons._callback` run, the user
callback occurs exactly once, after every member redraw. -/
theorem icon_events_once (l : List IButton) (c : ℕ) :
    ((l.map (fun but => IEvent._show but.id (if but.id = c then 1 else 0)))
        ++ [IEvent.userCB c]).filter IEvent.isUserCB = [IEvent.userCB c] ∧
    ((l.map (fun but => IEvent._show but.id (if but.id = c then 1 else 0)))
        ++ [IEvent.userCB c]).getLast? = some (IEvent.userCB c) := by
  constructor
  · induction l with
    | nil => rfl
    | cons b rest ih => simpa [IEvent.isUserCB] using ih
  · exact List.getLast?_concat _

/-- `IconRadioButtons._callback` never changes member identities. -/
theorem icon_callback_preserves_ids (g : IconRadioState) (c : ℕ) :
    (IconRadioButtons._callback g c).1.setbuttons.map IButton.id
      = g.setbuttons.map IButton.id := by
  simp only [IconRadioButtons._callback, List.map_map]
  apply List.map_congr_left
  intro b _
  simp only [Function.comp]
  split <;> rfl

/-- Member identities survive any sequence of `IconRadioButtons._callback`
transitions. -/
theorem icon_runCallbacks_preserves_ids : ∀ (cs : List ℕ) (g : IconRadioState),
    (IconRadioButtons.runCallbacks g cs).setbuttons.map IButton.id
      = g.setbuttons.map IButton.id := by
  intro cs
  induction cs with
  | nil => intro g; rfl
  | cons c rest ih =>
      intro g
      exact (ih (IconRadioButtons._callback g c).1).trans
        (icon_callback_preserves_ids g c)

/-- C1 as stated is refuted: selecting the state "foreground equals the
group's highlight colour" as the selected-state criterion, a constructible
`RadioButtons` group in which one member's original foreground colour
coincides with the highlight colour ends a legitimate selection
transition (chosen member 0, a member of a duplicate-free group) with two
members in the selected state: the chosen one and the member whose
restored original colour equals the highlight. -/
theorem claim_C1_counterexample :
    ((RadioButtons.add_button (RadioButtons.add_button (RadioButtons.init RED 1)
        0 (some GREEN)) 1 (some RED)).lstbuttons.map RButton.id).Nodup ∧
    0 ∈ (RadioButtons.add_button (RadioButtons.add_button (RadioButtons.init RED 1)
        0 (some GREEN)) 1 (some RED)).lstbuttons.map RButton.id ∧
    (RadioButtons.add_button (RadioButtons.add_button (RadioButtons.init RED 1)
        0 (some GREEN)) 1 (some RED)).highlight = RED ∧
    ((RadioButtons._callback (RadioButtons.add_button (RadioButtons.add_button
        (RadioButtons.init RED 1) 0 (some GREEN)) 1 (some RED)) 0).1.lstbuttons.filter
          (fun b => b.fgcolor = some RED)).length = 2 := by decide

/-- C1 amended: for `RadioButtons`, provided additionally that no
member's original foreground colour equals the group's highlight colour,
every selection transition (touch-dispatched `_callback`, or `value` with
a member other than the current one, which routes through `_callback`)
leaves exactly the chosen member with foreground equal to the highlight
colour, updates `current` to it, and fires the user callback exactly
once, after all member updates; the invariant holds after any sequence of
selections.  For `IconRadioButtons` the same holds unconditionally for
the icon-state-1 criterion. -/
theorem claim_C1_amended :
    (∀ (g : RadioButtonsState) (c : ℕ),
      (g.lstbuttons.map RButton.id).Nodup →
      c ∈ g.lstbuttons.map RButton.id →
      (∀ b ∈ g.lstbuttons, b.orig_fgcolor ≠ some g.highlight) →
      (((RadioButtons._callback g c).1.lstbuttons.filter
          (fun b => b.fgcolor = some g.highlight)).map RButton.id = [c]) ∧
      (RadioButtons._callback g c).1.current = some c ∧
      ((RadioButtons._callback g c).2.filter REvent.isUserCB = [REvent.userCB c]) ∧
      ((RadioButtons._callback g c).2.getLast? = some (REvent.userCB c))) ∧
    (∀ (g : RadioButtonsState) (cs : List ℕ) (c : ℕ),
      (g.lstbuttons.map RButton.id).Nodup →
      c ∈ g.lstbuttons.map RButton.id →
      (∀ b ∈ g.lstbuttons, b.orig_fgcolor ≠ some g.highlight) →
      ((RadioButtons.runCallbacks g (cs ++ [c])).lstbuttons.filter
          (fun b => b.fgcolor = some g.highlight)).length = 1) ∧
    (∀ (g : RadioButtonsState) (b : ℕ), some b ≠ g.current →
      RadioButtons.value g (some b)
        = (RadioButtons._callback g b, (RadioButtons._callback g b).1.current)) ∧
    (∀ (ig : IconRadioState) (c : ℕ),
      (ig.setbuttons.map IButton.id).Nodup →
      c ∈ ig.setbuttons.map IButton.id →
      (((IconRadioButtons._callback ig c).1.setbuttons.filter
          (fun b => b.state = 1)).map IButton.id = [c]) ∧
      ((IconRadioButtons._callback ig c).2.filter IEvent.isUserCB = [IEvent.userCB c]) ∧
      ((IconRadioButtons._callback ig c).2.getLast? = some (IEvent.userCB c))) ∧
    (∀ (ig : IconRadioState) (cs : List ℕ) (c : ℕ),
      (ig.setbuttons.map IButton.id).Nodup →
      c ∈ ig.setbuttons.map IButton.id →
      ((IconRadioButtons.runCallbacks ig (cs ++ [c])).setbuttons.filter
          (fun b => b.state = 1)).length = 1) := by
  refine ⟨?_, ?_, ?_, ?_, ?_⟩
  · intro g c hnd hmem horig
    refine ⟨radio_filter_selected g.highlight c g.lstbuttons hnd hmem horig, ?_,
      (radio_events_once g.lstbuttons c).1, (radio_events_once g.lstbuttons c).2⟩
    have hany : g.lstbuttons.any (fun but => but.id = c) = true := by
      obtain ⟨b, hb, hbid⟩ := List.mem_map.1 hmem
      exact List.any_eq_true.2 ⟨b, hb, by simpa using hbid⟩
    simp [RadioButtons._callback, hany]
  · intro g cs c hnd hmem horig
    have hpres := RadioButtons.runCallbacks_preserves cs g
    have hnd2 : ((RadioButtons.runCallbacks g cs).lstbuttons.map RButton.id).Nodup := by
      rw [map_pair_ids hpres.1]
      exact hnd
    have hmem2 : c ∈ (RadioButtons.runCallbacks g cs).lstbuttons.map RButton.id := by
      rw [map_pair_ids hpres.1]
      exact hmem
    have horig2 : ∀ b ∈ (RadioButtons.runCallbacks g cs).lstbuttons,
        b.orig_fgcolor ≠ some (RadioButtons.runCallbacks g cs).highlight := by
      rw [hpres.2]
      exact map_pair_origs hpres.1 g.highlight horig
    have hrun : RadioButtons.runCallbacks g (cs ++ [c])
        = (RadioButtons._callback (RadioButtons.runCallbacks g cs) c).1 := by
      simp [RadioButtons.runCallbacks, List.foldl_append]
    have hsel := radio_filter_selected (RadioButtons.runCallbacks g cs).highlight c
      (RadioButtons.runCallbacks g cs).lstbuttons hnd2 hmem2 horig2
    have hlen := congrArg List.length hsel
    rw [List.length_map] at hlen
    rw [hrun, ← hpres.2]
    exact hlen
  · intro g b hne
    simp [RadioButtons.value, hne]
  · intro ig c hnd hmem
    exact ⟨icon_filter_selected c ig.setbuttons hnd hmem,
      (icon_events_once ig.setbuttons c).1, (icon_events_once ig.setbuttons c).2⟩
  · intro ig cs c hnd hmem
    have hpres := icon_runCallbacks_preserves_ids cs ig
    have hnd2 : ((IconRadioButtons.runCallbacks ig cs).setbuttons.map IButton.id).Nodup := by
      rw [hpres]
      exact hnd
    have hmem2 : c ∈ (IconRadioButtons.runCallbacks ig cs).setbuttons.map IButton.id := by
      rw [hpres]
      exact hmem
    have hrun : IconRadioButtons.runCallbacks ig (cs ++ [c])
        = (IconRadioButtons._callback (IconRadioButtons.runCallbacks ig cs) c).1 := by
      simp [IconRadioButtons.runCallbacks, List.foldl_append]
    have hsel := icon_filter_selected c (IconRadioButtons.runCallbacks ig cs).setbuttons
      hnd2 hmem2
    have hlen := congrArg List.length hsel
    rw [List.length_map] at hlen
    rw [hrun]
    exact hlen

/-- Closed witness for C1 amended: a two-member `RadioButtons` group
(green and yellow members, red highlight) and a four-member
`IconRadioButtons` group, exercising a single transition, a programmatic
`value` selection, and two-step selection sequences. -/
theorem claim_C1_amended_witness :
    (((RadioButtons._callback (RadioButtonsState.mk RED
        [⟨0, some GREEN, some GREEN⟩, ⟨1, some YELLOW, some YELLOW⟩] (some 1) 1) 0).1.lstbuttons.filter
          (fun b => b.fgcolor = some RED)).map RButton.id = [0]) ∧
    ((RadioButtons.runCallbacks (RadioButtonsState.mk RED
        [⟨0, some GREEN, some GREEN⟩, ⟨1, some YELLOW, some YELLOW⟩] (some 1) 1) ([1] ++ [0])).lstbuttons.filter
          (fun b => b.fgcolor = some RED)).length = 1 ∧
    (RadioButtons.value (RadioButtonsState.mk RED
        [⟨0, some GREEN, some GREEN⟩, ⟨1, some YELLOW, some YELLOW⟩] (some 1) 1) (some 0)
      = (RadioButtons._callback (RadioButtonsState.mk RED
          [⟨0, some GREEN, some GREEN⟩, ⟨1, some YELLOW, some YELLOW⟩] (some 1) 1) 0,
         (RadioButtons._callback (RadioButtonsState.mk RED
          [⟨0, some GREEN, some GREEN⟩, ⟨1, some YELLOW, some YELLOW⟩] (some 1) 1) 0).1.current)) ∧
    (((IconRadioButtons._callback (IconRadioState.mk [⟨2, 1⟩, ⟨3, 0⟩, ⟨4, 0⟩, ⟨5, 0⟩] 0)
        4).1.setbuttons.filter (fun b => b.state = 1)).map IButton.id = [4]) ∧
    ((IconRadioButtons.runCallbacks (IconRadioState.mk [⟨2, 1⟩, ⟨3, 0⟩, ⟨4, 0⟩, ⟨5, 0⟩] 0)
        ([3] ++ [2])).setbuttons.filter (fun b => b.state = 1)).length = 1 :=
  ⟨(claim_C1_amended.1 (RadioButtonsState.mk RED
      [⟨0, some GREEN, some GREEN⟩, ⟨1, some YELLOW, some YELLOW⟩] (some 1) 1) 0
      (by decide) (by decide) (by decide)).1,
   claim_C1_amended.2.1 (RadioButtonsState.mk RED
      [⟨0, some GREEN, some GREEN⟩, ⟨1, some YELLOW, some YELLOW⟩] (some 1) 1) [1] 0
      (by decide) (by decide) (by decide),
   claim_C1_amended.2.2.1 (RadioButtonsState.mk RED
      [⟨0, some GREEN, some GREEN⟩, ⟨1, some YELLOW, some YELLOW⟩] (some 1) 1) 0 (by decide),
   (claim_C1_amended.2.2.2.1 (IconRadioState.mk [⟨2, 1⟩, ⟨3, 0⟩, ⟨4, 0⟩, ⟨5, 0⟩] 0) 4
      (by decide) (by decide)).1,
   claim_C1_amended.2.2.2.2 (IconRadioState.mk [⟨2, 1⟩, ⟨3, 0⟩, ⟨4, 0⟩, ⟨5, 0⟩] 0) [3] 2
      (by decide) (by decide)⟩

end UGui
